import Mathlib

/-!
A shallow embedding of the transport core of the nnounce scripting SDK:
src/src/communication/WebSocketCommunication.ts and
src/src/dspDesign/DesignUtil.ts.

Mutable class fields become explicit state records, socket and timer effects
become explicit action lists, and the JavaScript event-loop callbacks (socket
event listeners, setTimeout and setInterval callbacks, async continuations)
become state-transition functions. Wall-clock reads (new Date(), Date.now())
become an explicit now : Nat parameter, in milliseconds.
-/

namespace NnounceSdk

/-! ### JavaScript Map, modelled as an association list with unique keys.
assocGet is Map.get, assocSet is Map.set (replaces in place), assocDelete is
Map.delete. States built through assocSet never hold a duplicate key, matching
the JS Map; assocDelete is written as a filter so its lemmas hold for every
list. -/

def assocGet {α : Type} (m : List (String × α)) (k : String) : Option α :=
  (m.find? (fun e => e.1 == k)).map (fun e => e.2)

def assocSet {α : Type} (m : List (String × α)) (k : String) (v : α) : List (String × α) :=
  match m with
  | [] => [(k, v)]
  | e :: rest => if e.1 == k then (k, v) :: rest else e :: assocSet rest k v

def assocDelete {α : Type} (m : List (String × α)) (k : String) : List (String × α) :=
  m.filter (fun e => e.1 != k)

def assocHas {α : Type} (m : List (String × α)) (k : String) : Bool :=
  (assocGet m k).isSome

/-! ### Outgoing frames.
All messages the embedded code serializes (JSON.stringify) are flat JSON
objects; a message is a field list in property-insertion order, and renderObj
is JSON.stringify on it. -/

inductive JScalar
  | s (v : String)
  | n (v : Nat)
  deriving DecidableEq, Repr

def JScalar.render : JScalar → String
  | .s v => "\"" ++ v ++ "\""
  | .n v => toString v

def renderObj (fields : List (String × JScalar)) : String :=
  "\x7b" ++ String.intercalate "," (fields.map (fun f => "\"" ++ f.1 ++ "\":" ++ f.2.render)) ++ "\x7d"

/-! ### Inbound frames.
receiveMessage operates on the already-parsed frame (the source runs JSON.parse
first and returns early on a falsy parse result, before any routing). Absent or
null JSON fields are none. -/

structure Msg where
  type : String
  requestId : Option String
  state : Option String
  failReason : Option String
  deriving DecidableEq, Repr

/-- JavaScript truthiness of the requestId field read by
if (msgEvent.requestId): undefined, null and "" are falsy. -/
def truthyStr : Option String → Bool
  | none => false
  | some s => !s.isEmpty

/-- An event handler registered in the eventHandlers map. User-supplied
Consumer closures are opaque handler ids; the one closure the class itself
registers (the "heartbeat" stamper installed by onConnect) mutates
lastIncomeHeartbeat and is modelled by its own constructor. -/
inductive Handler
  | user (hid : Nat)
  | heartbeatStamp
  deriving DecidableEq, Repr

inductive ReadyState
  | connecting
  | opened
  | closing
  | closed
  deriving DecidableEq, Repr

/-- A WebSocket instance: identity (reference equality in JS) plus readyState. -/
structure Sock where
  sid : Nat
  readyState : ReadyState
  deriving DecidableEq, Repr

inductive TimerKind
  | reconnectTimer
  | heartbeatInterval
  | responseTimeout (requestId : String) (pid : Nat)
  deriving DecidableEq, Repr

/-- Observable effects of a transition: socket writes, socket close() calls,
promise resolutions/rejections, user-handler invocations, log lines. A promise
is named by an opaque id (pid). -/
inductive WsAction
  | send (msg : String)
  | closeCall (sid : Nat) (code : Nat) (reason : Option String)
  | resolve (pid : Nat) (m : Msg)
  | reject (pid : Nat) (reason : Option String)
  | invokeHandler (hid : Nat) (m : Msg)
  | logDebug (s : String)
  | logInfo (s : String)
  | logWarn (s : String)
  | logError (s : String)
  deriving DecidableEq, Repr

def WsAction.isLog : WsAction → Bool
  | .logDebug _ => true
  | .logInfo _ => true
  | .logWarn _ => true
  | .logError _ => true
  | _ => false

/-- True for the actions that settle a pending request's promise. -/
def WsAction.isResolution : WsAction → Bool
  | .resolve _ _ => true
  | .reject _ _ => true
  | _ => false

/-- The socket writes in an action list, in order. -/
def sends (as : List WsAction) : List String :=
  as.filterMap (fun a => match a with | WsAction.send m => some m | _ => none)

/-- Modelled from the spec: src/src/communication/constants.ts is not under
src/. Spec section 4.4: heartbeats are sent every fixed interval on the order
of seconds, and the missing-heartbeat timeout threshold is longer than the
send interval. -/
def WS_HEARTBEAT_INTERVAL : Nat := 5000

/-- Modelled from the spec: src/src/communication/constants.ts is not under
src/; the threshold is longer than the send interval (spec section 4.4). -/
def WS_MISSING_HEARTBEAT_TIMEOUT_MS : Nat := 15000

/-- The state of one WebSocketCommunication instance, together with the
event-loop resources it owns. pendingTimers holds the armed setTimeout and
setInterval entries (id, delay ms, kind); nextTimerId and nextSocketId are the
environment's fresh-handle supplies; logEnabled is
loggerConfig.isEnabledInternal(). -/
structure WSWorld where
  socket : Option Sock
  reconnectTimeout : Nat
  subscriptionEvents : List String
  disconnectEventBuffer : List String
  eventHandlers : List (String × Handler)
  eventResultHandlers : List (String × Nat)
  heartbeatSendingInterval : Option Nat
  lastIncomeHeartbeat : Option Nat
  pendingTimers : List (Nat × Nat × TimerKind)
  nextTimerId : Nat
  nextSocketId : Nat
  logEnabled : Bool
  deriving DecidableEq, Repr

/-- Field values at construction (the constructor also calls connect()). -/
def initialWorld : WSWorld :=
  { socket := none
    reconnectTimeout := 0
    subscriptionEvents := []
    disconnectEventBuffer := []
    eventHandlers := []
    eventResultHandlers := []
    heartbeatSendingInterval := none
    lastIncomeHeartbeat := none
    pendingTimers := []
    nextTimerId := 1
    nextSocketId := 1
    logEnabled := true }

def logIf (w : WSWorld) (a : WsAction) : List WsAction :=
  if w.logEnabled then [a] else []

def setTimeoutT (w : WSWorld) (delay : Nat) (kind : TimerKind) : WSWorld × Nat :=
  let id := w.nextTimerId
  ({ w with pendingTimers := w.pendingTimers ++ [(id, delay, kind)], nextTimerId := id + 1 }, id)

def clearTimeoutT (w : WSWorld) (id : Nat) : WSWorld :=
  { w with pendingTimers := w.pendingTimers.filter (fun t => t.1 != id) }

/-- connected(): socket exists and its readyState is OPEN. -/
def connected (w : WSWorld) : Bool :=
  match w.socket with
  | some s => s.readyState == ReadyState.opened
  | none => false

/-- Reference comparison this.socket != socket, by socket identity. -/
def isCurrentSocket (w : WSWorld) (sid : Nat) : Bool :=
  match w.socket with
  | some s => s.sid == sid
  | none => false

/-- sendMessageToSocket: write when connected; when disconnected drop
subscription payloads (they replay from the registry on connect) and append
everything else to the disconnect buffer. -/
def sendMessageToSocket (w : WSWorld) (jsonMessage : String) (isSubscriptionEvent : Bool) :
    WSWorld × List WsAction :=
  if connected w then
    (w, logIf w (WsAction.logDebug ("Sending msg to websocket - message " ++ jsonMessage)) ++
        [WsAction.send jsonMessage])
  else if isSubscriptionEvent then
    (w, logIf w (WsAction.logWarn
      ("Websocket is not connected. Subscription event will be sent once websocket connection is established. Event: "
        ++ jsonMessage)))
  else
    ({ w with disconnectEventBuffer := w.disconnectEventBuffer ++ [jsonMessage] },
     logIf w (WsAction.logWarn
      ("Websocket is not connected. Event added into disconnected buffer. Event: " ++ jsonMessage)))

/-- sendEvent: serialize; record subscription events in the replay registry;
hand to sendMessageToSocket. -/
def sendEvent (w : WSWorld) (message : List (String × JScalar)) (isSubscriptionEvent : Bool) :
    WSWorld × List WsAction :=
  let jsonMessage := renderObj message
  if isSubscriptionEvent then
    let pre := logIf w (WsAction.logDebug ("Subscription for event: " ++ jsonMessage))
    let w1 := { w with subscriptionEvents := w.subscriptionEvents ++ [jsonMessage] }
    let r := sendMessageToSocket w1 jsonMessage true
    (r.1, pre ++ r.2)
  else
    sendMessageToSocket w jsonMessage false

/-- addEventHandler: at most one handler per message kind, later registration
replaces earlier. -/
def addEventHandler (w : WSWorld) (type : String) (onEvent : Handler) : WSWorld :=
  { w with eventHandlers := assocSet w.eventHandlers type onEvent }

/-- The IPollSubscriptionEvent object literal built by subscribeToEvent, in
property order. -/
def pollSubscriptionJson (requestType : String) (dataEveryMs : Nat) : List (String × JScalar) :=
  [("type", JScalar.s requestType), ("dataEveryMs", JScalar.n dataEveryMs),
   ("keepAliveMs", JScalar.n 0), ("responseTag", JScalar.s "deno-script-api")]

def subscribeToEvent (w : WSWorld) (requestType responseType : String) (dataEveryMs : Nat)
    (onEvent : Handler) : WSWorld × List WsAction :=
  let w1 := addEventHandler w responseType onEvent
  sendEvent w1 (pollSubscriptionJson requestType dataEveryMs) true

/-- The ISubscriptionEvent object literal built by subscribeToLiveEvent, in
property order. -/
def liveSubscriptionJson (requestType : String) : List (String × JScalar) :=
  [("keepAliveMs", JScalar.n 0), ("responseTag", JScalar.s "deno-script-api"),
   ("type", JScalar.s requestType)]

def subscribeToLiveEvent (w : WSWorld) (requestType responseType : String) (onEvent : Handler) :
    WSWorld × List WsAction :=
  let w1 := addEventHandler w responseType onEvent
  sendEvent w1 (liveSubscriptionJson requestType) true

/-- An outgoing INnounceClientRequestEvent: a type, the caller-generated
requestId, and its remaining fields. -/
structure RequestEvent where
  type : String
  requestId : String
  extra : List (String × JScalar)
  deriving DecidableEq, Repr

def requestJson (e : RequestEvent) : List (String × JScalar) :=
  ("type", JScalar.s e.type) :: ("requestId", JScalar.s e.requestId) :: e.extra

/-- The synchronous prefix of sendEventWithResponse for promise pid: the
promise executor registers the result handler under the requestId and arms the
60 s timeout, then the request is sent. (On resolution the source also clears
the timer; the timeout path is modelled by responseTimeoutFire below.) -/
def sendEventWithResponseStart (w : WSWorld) (requestEvent : RequestEvent) (pid : Nat)
    (isSubscriptionEvent : Bool) : WSWorld × List WsAction :=
  let w1 := { w with eventResultHandlers := assocSet w.eventResultHandlers requestEvent.requestId pid }
  let w2 := (setTimeoutT w1 60000 (TimerKind.responseTimeout requestEvent.requestId pid)).1
  sendEvent w2 (requestJson requestEvent) isSubscriptionEvent

/-- The setTimeout callback armed by sendEventWithResponse: Map.delete returns
whether the entry was still present; only then is the promise rejected with the
timeout error. -/
def responseTimeoutFire (w : WSWorld) (requestId : String) (pid : Nat) : WSWorld × List WsAction :=
  if assocHas w.eventResultHandlers requestId then
    ({ w with eventResultHandlers := assocDelete w.eventResultHandlers requestId },
     [WsAction.reject pid (some "Response was not obtained in 60s")])
  else
    (w, [])

/-- processResponse: look up the pending handler by requestId, delete it from
the map, then invoke it. The only handlers ever stored in eventResultHandlers
are the closures registered by sendEventWithResponse, which resolve the promise
when response.state is "OK" and reject it with response.failReason otherwise;
that behaviour is therefore inlined here. An unknown requestId only logs. -/
def processResponse (w : WSWorld) (resultEvent : Msg) : WSWorld × List WsAction :=
  let rid := resultEvent.requestId.getD ""
  let dbg := logIf w (WsAction.logDebug ("Process response with ID " ++ rid))
  match assocGet w.eventResultHandlers rid with
  | some pid =>
    let w1 := { w with eventResultHandlers := assocDelete w.eventResultHandlers rid }
    let act :=
      if resultEvent.state == some "OK" then WsAction.resolve pid resultEvent
      else WsAction.reject pid resultEvent.failReason
    (w1, dbg ++ [act])
  | none =>
    (w, dbg ++ logIf w (WsAction.logWarn "No listener is available for process result event"))

/-- receiveMessage, after the JSON.parse guard: frames with a truthy requestId
are responses; everything else is dispatched by type through eventHandlers,
where a missing handler means the frame is ignored. -/
def receiveMessage (w : WSWorld) (now : Nat) (m : Msg) : WSWorld × List WsAction :=
  if truthyStr m.requestId then
    processResponse w m
  else
    match assocGet w.eventHandlers m.type with
    | some (Handler.user hid) => (w, [WsAction.invokeHandler hid m])
    | some Handler.heartbeatStamp => ({ w with lastIncomeHeartbeat := some now }, [])
    | none => (w, [])

/-- reconnect(): arm a 1000 ms timer whose callback is disconnect(); connect();
the stored handle is overwritten, any previously armed reconnect timer stays
pending. -/
def reconnect (w : WSWorld) : WSWorld :=
  let r := setTimeoutT w 1000 TimerKind.reconnectTimer
  { r.1 with reconnectTimeout := r.2 }

/-- onDisconnect(socket): ignore signals from a socket that is no longer the
owned one; otherwise schedule a reconnect. -/
def onDisconnect (w : WSWorld) (sid : Nat) : WSWorld × List WsAction :=
  if isCurrentSocket w sid then
    (reconnect w, logIf w (WsAction.logInfo "Websocket disconnected"))
  else
    (w, [])

/-- The close event of socket sid being delivered: the environment marks the
socket CLOSED, then the close listener runs onDisconnect(ws). -/
def socketCloseSignal (w : WSWorld) (sid : Nat) : WSWorld × List WsAction :=
  let w1 :=
    if isCurrentSocket w sid then
      { w with socket := w.socket.map (fun s => { s with readyState := ReadyState.closed }) }
    else w
  onDisconnect w1 sid

/-- The error listener: logs and calls reconnect() with no identity check. -/
def socketErrorSignal (w : WSWorld) (message : String) : WSWorld × List WsAction :=
  (reconnect w, logIf w (WsAction.logWarn (message ++ " - trying to reconnect.")))

/-- stopSentHeartBeat: clear the interval and forget the last heartbeat. -/
def stopSentHeartBeat (w : WSWorld) : WSWorld :=
  match w.heartbeatSendingInterval with
  | some tid =>
    { w with pendingTimers := w.pendingTimers.filter (fun t => t.1 != tid)
             heartbeatSendingInterval := none
             lastIncomeHeartbeat := none }
  | none => w

/-- startSendHeartBeat: restart the interval, then stamp now as the last
received heartbeat. The tick callback is heartbeatTick below. -/
def startSendHeartBeat (w : WSWorld) (now : Nat) : WSWorld :=
  let w1 := stopSentHeartBeat w
  let r := setTimeoutT w1 WS_HEARTBEAT_INTERVAL TimerKind.heartbeatInterval
  { r.1 with heartbeatSendingInterval := some r.2, lastIncomeHeartbeat := some now }

/-- isHeartbeatTimeout, with new Date() passed in as now. -/
def isHeartbeatTimeout (w : WSWorld) (now : Nat) : Bool :=
  match w.lastIncomeHeartbeat with
  | none => false
  | some t => (now : Int) - (t : Int) > (WS_MISSING_HEARTBEAT_TIMEOUT_MS : Int)

def heartbeatJson : List (String × JScalar) := [("type", JScalar.s "heartbeat")]

/-- The setInterval tick armed by startSendHeartBeat: send a heartbeat if
connected, then force-close the socket if the last inbound heartbeat is too
old. socket.close() moves the socket to CLOSING; the close event then follows
the normal socketCloseSignal path. -/
def heartbeatTick (w : WSWorld) (now : Nat) : WSWorld × List WsAction :=
  let r1 := if connected w then sendEvent w heartbeatJson false else (w, [])
  if isHeartbeatTimeout r1.1 now then
    let warn := logIf r1.1 (WsAction.logWarn "Close socket due to missing heartbeat")
    match r1.1.socket with
    | some s =>
      ({ r1.1 with socket := some { s with readyState := ReadyState.closing } },
       r1.2 ++ warn ++ [WsAction.closeCall s.sid 1000 (some "Missing heartbeat")])
    | none => (r1.1, r1.2 ++ warn)
  else
    r1

/-- The forEach send loops in onConnect. -/
def sendList (w : WSWorld) (msgs : List String) (isSubscriptionEvent : Bool) :
    WSWorld × List WsAction :=
  match msgs with
  | [] => (w, [])
  | m :: rest =>
    let r1 := sendMessageToSocket w m isSubscriptionEvent
    let r2 := sendList r1.1 rest isSubscriptionEvent
    (r2.1, r1.2 ++ r2.2)

/-- onConnect: replay every subscription registry entry, swap the disconnect
buffer for a fresh one, flush the captured buffer in order, restart the
heartbeat and register the heartbeat stamper. -/
def onConnect (w : WSWorld) (now : Nat) : WSWorld × List WsAction :=
  let r1 := sendList w w.subscriptionEvents true
  let buffered := r1.1.disconnectEventBuffer
  let w2 := { r1.1 with disconnectEventBuffer := [] }
  let r2 := sendList w2 buffered false
  let w4 := startSendHeartBeat r2.1 now
  let w5 := addEventHandler w4 "heartbeat" Handler.heartbeatStamp
  (w5, r1.2 ++ r2.2)

/-- disconnect(): stop the heartbeat, drop the socket handle, and close the
socket if it was still OPEN or CONNECTING. -/
def disconnect (w : WSWorld) : WSWorld × List WsAction :=
  match w.socket with
  | none => (w, [])
  | some s =>
    let w1 := stopSentHeartBeat w
    let w2 := { w1 with socket := none }
    if s.readyState == ReadyState.opened || s.readyState == ReadyState.connecting then
      (w2, logIf w2 (WsAction.logDebug "Closing socket") ++ [WsAction.closeCall s.sid 1000 none])
    else
      (w2, [])

/-- connect(): cancel the stored reconnect handle; no-op while a socket handle
exists; otherwise open a fresh socket (modelled as always constructing
successfully) in the CONNECTING state. -/
def connect (w : WSWorld) : WSWorld × List WsAction :=
  let w1 := clearTimeoutT w w.reconnectTimeout
  match w1.socket with
  | some _ => (w1, [])
  | none =>
    ({ w1 with socket := some { sid := w1.nextSocketId, readyState := ReadyState.connecting }
               nextSocketId := w1.nextSocketId + 1 },
     logIf w1 (WsAction.logInfo "Connecting to websocket"))

/-- The environment firing pending reconnect timer tid: the callback is
disconnect(); connect(). A fired setTimeout leaves the pending set. -/
def reconnectTimerFire (w : WSWorld) (tid : Nat) : WSWorld × List WsAction :=
  match w.pendingTimers.find? (fun t => t.1 == tid) with
  | some (_, _, TimerKind.reconnectTimer) =>
    let w0 := { w with pendingTimers := w.pendingTimers.filter (fun t => t.1 != tid) }
    let r1 := disconnect w0
    let r2 := connect r1.1
    (r2.1, r1.2 ++ r2.2)
  | _ => (w, [])

/-- Number of reconnect attempts currently scheduled. -/
def pendingReconnects (w : WSWorld) : Nat :=
  (w.pendingTimers.filter (fun t =>
    match t.2.2 with | TimerKind.reconnectTimer => true | _ => false)).length

/-! ### DesignUtil: the single-flight design load coordinator
(src/src/dspDesign/DesignUtil.ts). loadDesignInternal is async: its code up to
the awaited remote fetch is loadDesignStart, and the continuation that runs
when the fetch completes is loadDesignFinish. -/

inductive LoadDesignState
  | NONE
  | DONE
  | LOADING
  | ERROR
  deriving DecidableEq, Repr

/-- ANpdConfig as used by DesignUtil: only the type discriminator is read. -/
structure NpdConfig where
  type : String
  deriving DecidableEq, Repr

/-- A node of dspDesign.drawflow.Home.data as read by loadDesignInternal. -/
structure DrawflowNode where
  id : Nat
  name : String
  type : String
  deriving DecidableEq, Repr

/-- The DspDesign payload of a DesignLoadResultEvent, as read by
loadDesignInternal: Object.entries(dspDesign.runtime),
Object.values(dspDesign.drawflow.Home.data), and the opaque metadata. -/
structure DspDesign where
  runtime : List (String × NpdConfig)
  drawflowHomeData : List DrawflowNode
  metadata : Nat
  deriving DecidableEq, Repr

structure PartialDesign where
  metadata : Nat
  runtime : List (String × NpdConfig)
  nameToId : List (String × Nat)
  deriving DecidableEq, Repr

def DESIRED_COMPONENT_TYPES : List String := ["gain", "net_rx", "net_tx", "ducker"]

/-- The DesignHelper fields, plus inflight: the promise ids of the main-loader
calls currently suspended on the awaited remote fetch (the suspended async
frames of loadDesignInternal, not a source field). -/
structure DState where
  partialDesign : Option PartialDesign
  timestamp : Nat
  state : LoadDesignState
  loadFinishConsumers : List Nat
  loaderIdentifier : Option String
  inflight : List Nat
  deriving DecidableEq, Repr

/-- Observable effects of the coordinator: issuing the (retry-wrapped) remote
fetch, resolving an enqueued waiter's promise, and the main loader's own call
completing. -/
inductive DAction
  | fetch (loaderPid : Nat)
  | resolveWaiter (pid : Nat)
  | completeLoader (pid : Nat)
  deriving DecidableEq, Repr

/-- The DesignHelper constructor state. -/
def initialDState : DState :=
  { partialDesign := none
    timestamp := 0
    state := LoadDesignState.NONE
    loadFinishConsumers := []
    loaderIdentifier := none
    inflight := [] }

/-- getIdentifier(): Date.now() plus a random 4-character suffix, both taken
from the environment. -/
def getIdentifier (now : Nat) (rand : String) : String :=
  toString now ++ "_" ++ rand

/-- The synchronous prefix of loadDesignInternal(identifier) for the call whose
own promise is pid. While a different-identity load is in flight the call
enqueues a completion callback and issues nothing (the re-check inside the
promise executor always sees LOADING because the executor runs synchronously);
otherwise the call becomes the main loader: it stamps LOADING and its identity
and issues the remote fetch (sendEventWithResponse under RetryUtil.runAsync
with unlimited retries). -/
def loadDesignStart (d : DState) (identifier : String) (pid : Nat) : DState × List DAction :=
  if d.state == LoadDesignState.LOADING && d.loaderIdentifier != some identifier then
    ({ d with loadFinishConsumers := d.loadFinishConsumers ++ [pid] }, [])
  else
    ({ d with state := LoadDesignState.LOADING
              loaderIdentifier := some identifier
              inflight := d.inflight ++ [pid] },
     [DAction.fetch pid])

/-- notifyAllDesignConsumers: invoke every queued completion callback in order,
then clear the queue. -/
def notifyAllDesignConsumers (d : DState) : DState × List DAction :=
  ({ d with loadFinishConsumers := [] }, d.loadFinishConsumers.map DAction.resolveWaiter)

/-- The continuation of the main loader pid when its awaited fetch returns
resp (the data field of the DesignLoadResultEvent; a missing payload means the
DSP runs no design). On no payload: state ERROR, notify everyone. On payload:
keep only the desired component types of the runtime, build the name-to-id map
from the drawflow nodes of desired types (Map.set, later node wins), stamp
DONE, notify everyone. -/
def loadDesignFinish (d : DState) (pid : Nat) (resp : Option DspDesign) (now : Nat) :
    DState × List DAction :=
  let d0 := { d with inflight := d.inflight.filter (fun q => q != pid) }
  match resp with
  | none =>
    let r := notifyAllDesignConsumers { d0 with state := LoadDesignState.ERROR }
    (r.1, r.2 ++ [DAction.completeLoader pid])
  | some dspDesign =>
    let runtime := dspDesign.runtime.filter (fun e => DESIRED_COMPONENT_TYPES.contains e.2.type)
    let nameToId :=
      (dspDesign.drawflowHomeData.filter (fun n => DESIRED_COMPONENT_TYPES.contains n.type)).foldl
        (fun m n => assocSet m n.name n.id) []
    let r := notifyAllDesignConsumers
      { d0 with partialDesign := some { metadata := dspDesign.metadata, runtime := runtime,
                                        nameToId := nameToId }
                timestamp := now
                state := LoadDesignState.DONE }
    (r.1, r.2 ++ [DAction.completeLoader pid])

/-- A batch of load() calls arriving in order, each with its identifier and its
promise id, run through loadDesignStart. -/
def runStarts (d : DState) (calls : List (String × Nat)) : DState × List DAction :=
  match calls with
  | [] => (d, [])
  | c :: rest =>
    let r1 := loadDesignStart d c.1 c.2
    let r2 := runStarts r1.1 rest
    (r2.1, r1.2 ++ r2.2)

/-- A batch of subscribeToEvent calls under one responseType, in order: each
element carries its requestType, dataEveryMs and handler. -/
def subscribeMany (w : WSWorld) (responseType : String) (calls : List (String × Nat × Handler)) :
    WSWorld × List WsAction :=
  match calls with
  | [] => (w, [])
  | c :: rest =>
    let r1 := subscribeToEvent w c.1 responseType c.2.1 c.2.2
    let r2 := subscribeMany r1.1 responseType rest
    (r2.1, r1.2 ++ r2.2)

/-! ### The claims, as predicates over the embedded model. -/

/-- C1: routing of a frame with a truthy requestId, one-shot resolution of the
pending entry, and the no-op behaviour on an unknown requestId. Removal-before-
invocation shows up as: the post-state of processResponse already lacks the
entry, exactly one resolution action is emitted, and re-delivering the same
response to the post-state resolves nothing. -/
def C1Prop (w : WSWorld) (now : Nat) (m : Msg) : Prop :=
  receiveMessage w now m = processResponse w m
  ∧ (∀ pid, assocGet w.eventResultHandlers (m.requestId.getD "") = some pid →
      (processResponse w m).1.eventResultHandlers
          = assocDelete w.eventResultHandlers (m.requestId.getD "")
        ∧ ((processResponse w m).2.filter WsAction.isResolution).length = 1
        ∧ (processResponse (processResponse w m).1 m).1 = (processResponse w m).1
        ∧ ((processResponse (processResponse w m).1 m).2.filter WsAction.isResolution) = [])
  ∧ (assocGet w.eventResultHandlers (m.requestId.getD "") = none →
      (processResponse w m).1 = w ∧ (processResponse w m).2.all WsAction.isLog = true)

/-- C2: with a load in flight under loader identity id0 (suspended loader
promise p0), N further load() calls under other identities all enqueue, issue
nothing, keep a single fetch in flight, and the single completion notifies
every waiter of the one outcome. -/
def C2Prop (pd : Option PartialDesign) (ts : Nat) (id0 : String) (p0 : Nat)
    (calls : List (String × Nat)) (resp : Option DspDesign) (now : Nat) : Prop :=
  let d0 : DState :=
    { partialDesign := pd, timestamp := ts, state := LoadDesignState.LOADING,
      loadFinishConsumers := [], loaderIdentifier := some id0, inflight := [p0] }
  let r := runStarts d0 calls
  r.2 = []
  ∧ r.1 = { d0 with loadFinishConsumers := calls.map Prod.snd }
  ∧ (∀ pre suf, calls = pre ++ suf → (runStarts d0 pre).1.inflight = [p0])
  ∧ (let rf := loadDesignFinish r.1 p0 resp now
     rf.2 = calls.map (fun c => DAction.resolveWaiter c.2) ++ [DAction.completeLoader p0]
     ∧ rf.1.loadFinishConsumers = []
     ∧ rf.1.inflight = []
     ∧ rf.1.state = (match resp with
        | none => LoadDesignState.ERROR
        | some _ => LoadDesignState.DONE))

/-- C3: what a successful (re)connect emits and leaves behind: the registry
replayed verbatim in registration order, then the captured buffer in FIFO
order, each exactly once; the buffer ends empty and the registry is kept. -/
def C3Prop (w : WSWorld) (now : Nat) : Prop :=
  sends (onConnect w now).2 = w.subscriptionEvents ++ w.disconnectEventBuffer
  ∧ (onConnect w now).1.disconnectEventBuffer = []
  ∧ (onConnect w now).1.subscriptionEvents = w.subscriptionEvents

/-- C4: sendEventWithResponse registers the pending entry and arms the 60 s
timer; when the timer fires with the entry still present the promise is
rejected with the timeout error and the entry removed; a response for that
requestId arriving afterwards changes nothing and only logs. -/
def C4Prop (w w' : WSWorld) (req : RequestEvent) (pid : Nat) (isSub : Bool) (m : Msg) : Prop :=
  (sendEventWithResponseStart w req pid isSub).1.eventResultHandlers
      = assocSet w.eventResultHandlers req.requestId pid
  ∧ assocGet (sendEventWithResponseStart w req pid isSub).1.eventResultHandlers req.requestId
      = some pid
  ∧ (sendEventWithResponseStart w req pid isSub).1.pendingTimers
      = w.pendingTimers ++ [(w.nextTimerId, 60000, TimerKind.responseTimeout req.requestId pid)]
  ∧ (responseTimeoutFire w' req.requestId pid).2
      = [WsAction.reject pid (some "Response was not obtained in 60s")]
  ∧ (responseTimeoutFire w' req.requestId pid).1.eventResultHandlers
      = assocDelete w'.eventResultHandlers req.requestId
  ∧ assocGet (responseTimeoutFire w' req.requestId pid).1.eventResultHandlers req.requestId = none
  ∧ (processResponse (responseTimeoutFire w' req.requestId pid).1 m).1
      = (responseTimeoutFire w' req.requestId pid).1
  ∧ (processResponse (responseTimeoutFire w' req.requestId pid).1 m).2.all WsAction.isLog = true

/-- C5 (amended): while Loading under identity id, a call under the same id
re-enters the main-loader path (a fresh fetch, no enqueue), while a call under
a different id enqueues and issues nothing. -/
def C5Prop (d : DState) (id id2 : String) (pid pid2 : Nat) : Prop :=
  loadDesignStart d id pid
      = ({ d with state := LoadDesignState.LOADING, loaderIdentifier := some id,
                  inflight := d.inflight ++ [pid] }, [DAction.fetch pid])
  ∧ loadDesignStart d id2 pid2
      = ({ d with loadFinishConsumers := d.loadFinishConsumers ++ [pid2] }, [])

/-- C6 (amended): a close signal for a socket that is not the owned one is a
complete no-op; a close for the owned socket schedules exactly one 1000 ms
reconnect timer; an error signal schedules exactly one 1000 ms reconnect timer
with no identity check; each scheduling overwrites the stored handle, and
connect() cancels the timer the handle points to. -/
def C6Prop (w : WSWorld) (sid : Nat) (msg : String) : Prop :=
  (isCurrentSocket w sid = false → socketCloseSignal w sid = (w, []))
  ∧ (isCurrentSocket w sid = true →
      (socketCloseSignal w sid).1.pendingTimers
          = w.pendingTimers ++ [(w.nextTimerId, 1000, TimerKind.reconnectTimer)]
        ∧ (socketCloseSignal w sid).1.reconnectTimeout = w.nextTimerId)
  ∧ (socketErrorSignal w msg).1.pendingTimers
      = w.pendingTimers ++ [(w.nextTimerId, 1000, TimerKind.reconnectTimer)]
  ∧ (socketErrorSignal w msg).1.reconnectTimeout = w.nextTimerId
  ∧ (connect w).1.pendingTimers.all (fun t => t.1 != w.reconnectTimeout) = true

/-- C7: a subscribe call replaces the handler under its responseType and
appends its payload to the registry without deduplication; k same-kind calls
append k entries with the last handler winning; on a later connect the whole
registry (then the buffer) is resent. -/
def C7Prop (w : WSWorld) (requestType responseType : String) (dataEveryMs : Nat) (hdl : Handler)
    (calls : List (String × Nat × Handler)) (now : Nat) : Prop :=
  (subscribeToEvent w requestType responseType dataEveryMs hdl).1.eventHandlers
      = assocSet w.eventHandlers responseType hdl
  ∧ (subscribeToEvent w requestType responseType dataEveryMs hdl).1.subscriptionEvents
      = w.subscriptionEvents ++ [renderObj (pollSubscriptionJson requestType dataEveryMs)]
  ∧ (subscribeMany w responseType calls).1.subscriptionEvents
      = w.subscriptionEvents ++ calls.map (fun c => renderObj (pollSubscriptionJson c.1 c.2.1))
  ∧ (subscribeMany w responseType calls).1.subscriptionEvents.length
      = w.subscriptionEvents.length + calls.length
  ∧ (∀ cs c, calls = cs ++ [c] →
      assocGet (subscribeMany w responseType calls).1.eventHandlers responseType = some c.2.2)
  ∧ (connected (subscribeMany w responseType calls).1 = true →
      sends (onConnect (subscribeMany w responseType calls).1 now).2
        = (subscribeMany w responseType calls).1.subscriptionEvents
          ++ (subscribeMany w responseType calls).1.disconnectEventBuffer)

/-- C8: a heartbeat tick on a connected socket with a stale inbound heartbeat
sends one heartbeat frame and force-closes the socket with the diagnostic
reason; the close signal then schedules a reconnect; the teardown in the fired
reconnect drops the socket handle (Disconnected) and connect() opens a fresh
socket in the Connecting state. -/
def C8Prop (w : WSWorld) (sid : Nat) (now : Nat) : Prop :=
  sends (heartbeatTick w now).2 = [renderObj heartbeatJson]
  ∧ WsAction.closeCall sid 1000 (some "Missing heartbeat") ∈ (heartbeatTick w now).2
  ∧ (heartbeatTick w now).1.socket = some { sid := sid, readyState := ReadyState.closing }
  ∧ pendingReconnects (socketCloseSignal (heartbeatTick w now).1 sid).1
      = pendingReconnects w + 1
  ∧ connected (socketCloseSignal (heartbeatTick w now).1 sid).1 = false
  ∧ (disconnect (socketCloseSignal (heartbeatTick w now).1 sid).1).1.socket = none
  ∧ (reconnectTimerFire (socketCloseSignal (heartbeatTick w now).1 sid).1
        (socketCloseSignal (heartbeatTick w now).1 sid).1.reconnectTimeout).1.socket
      = some { sid := w.nextSocketId, readyState := ReadyState.connecting }

/-- C9: a frame whose requestId is falsy never touches the pending-request
map and is dispatched by type: missing handler ignores the frame, a user
handler is invoked, the heartbeat stamper stamps now. -/
def C9Prop (w : WSWorld) (now : Nat) (m : Msg) : Prop :=
  (receiveMessage w now m).1.eventResultHandlers = w.eventResultHandlers
  ∧ (assocGet w.eventHandlers m.type = none → receiveMessage w now m = (w, []))
  ∧ (∀ hid, assocGet w.eventHandlers m.type = some (Handler.user hid) →
      receiveMessage w now m = (w, [WsAction.invokeHandler hid m]))
  ∧ (assocGet w.eventHandlers m.type = some Handler.heartbeatStamp →
      receiveMessage w now m = ({ w with lastIncomeHeartbeat := some now }, []))

/-- C10: the subscription replay phase never touches the buffer (the flush then
starts from the swapped-in empty buffer); a non-subscription send on a
disconnected state re-appends the message to the (new) buffer rather than
dropping it; every buffered message is, after onConnect, either written to the
socket or still buffered; and a fully disconnected onConnect leaves the buffer
exactly as it was (no loss, no duplication). -/
def C10Prop (w : WSWorld) (now : Nat) (x : String) (w' : WSWorld) (msg : String) : Prop :=
  (sendList w w.subscriptionEvents true).1 = w
  ∧ sendMessageToSocket w' msg false
      = ({ w' with disconnectEventBuffer := w'.disconnectEventBuffer ++ [msg] },
         logIf w' (WsAction.logWarn
           ("Websocket is not connected. Event added into disconnected buffer. Event: " ++ msg)))
  ∧ (WsAction.send x ∈ (onConnect w now).2 ∨ x ∈ (onConnect w now).1.disconnectEventBuffer)
  ∧ (connected w = false →
      (onConnect w now).1.disconnectEventBuffer = w.disconnectEventBuffer
        ∧ sends (onConnect w now).2 = [])

/-! ### Concrete scenario states used by the witnesses and counterexamples. -/

def mC1 : Msg := { type := "Xresult", requestId := some "r1", state := some "OK", failReason := none }

def wC1 : WSWorld := { initialWorld with eventResultHandlers := [("r1", 7)] }

def dC2 : Option DspDesign :=
  some { runtime := [("5", { type := "gain" }), ("6", { type := "mixer" })],
         drawflowHomeData := [{ id := 5, name := "g1", type := "gain" }],
         metadata := 42 }

def wC3 : WSWorld :=
  { initialWorld with socket := some { sid := 1, readyState := ReadyState.opened },
                      nextSocketId := 2,
                      subscriptionEvents := ["subA", "subB"],
                      disconnectEventBuffer := ["m1", "m2"] }

def reqC4 : RequestEvent := { type := "X", requestId := "r4", extra := [] }

def mC4 : Msg := { type := "Xresult", requestId := some "r4", state := some "OK", failReason := none }

def wC4 : WSWorld := { initialWorld with eventResultHandlers := [("r4", 9)] }

def dC5 : DState :=
  { partialDesign := none, timestamp := 0, state := LoadDesignState.LOADING,
    loadFinishConsumers := [], loaderIdentifier := some "a", inflight := [0] }

def wC6 : WSWorld :=
  { initialWorld with socket := some { sid := 1, readyState := ReadyState.opened },
                      nextSocketId := 2 }

def wC8 : WSWorld :=
  { initialWorld with socket := some { sid := 1, readyState := ReadyState.opened },
                      nextSocketId := 2,
                      lastIncomeHeartbeat := some 0 }

def mC9 : Msg := { type := "statusNotify", requestId := none, state := none, failReason := none }

def wC9 : WSWorld :=
  { initialWorld with eventHandlers := [("statusNotify", Handler.user 3)],
                      eventResultHandlers := [("r9", 1)] }

def wC10 : WSWorld :=
  { initialWorld with subscriptionEvents := ["subA"], disconnectEventBuffer := ["m1", "m2"] }

/-! ### Shared lemmas about the map model and the action projections. -/

theorem assocGet_cons {α : Type} (e : String × α) (rest : List (String × α)) (k : String) :
    assocGet (e :: rest) k = if e.1 == k then some e.2 else assocGet rest k := by
  by_cases h : e.1 == k <;> simp [assocGet, List.find?_cons, h]

theorem assocGet_assocDelete {α : Type} (m : List (String × α)) (k : String) :
    assocGet (assocDelete m k) k = none := by
  induction m with
  | nil => rfl
  | cons e rest ih =>
    cases h : (e.1 == k) with
    | true => simpa [assocDelete, List.filter_cons, bne, h] using ih
    | false => simpa [assocDelete, List.filter_cons, bne, h, assocGet_cons] using ih

theorem assocGet_assocSet_self {α : Type} (m : List (String × α)) (k : String) (v : α) :
    assocGet (assocSet m k v) k = some v := by
  induction m with
  | nil => simp [assocSet, assocGet_cons]
  | cons e rest ih =>
    by_cases h : e.1 == k
    · simp [assocSet, h, assocGet_cons]
    · simpa [assocSet, h, assocGet_cons] using ih

theorem sends_append (a b : List WsAction) : sends (a ++ b) = sends a ++ sends b := by
  simp [sends]

theorem sends_nil : sends [] = [] := rfl

theorem sends_single_send (m : String) : sends [WsAction.send m] = [m] := rfl

theorem sends_cons_send (m : String) (as : List WsAction) :
    sends (WsAction.send m :: as) = m :: sends as := by
  simp [sends]

theorem sends_logIf_debug (w : WSWorld) (s : String) :
    sends (logIf w (WsAction.logDebug s)) = [] := by
  unfold logIf
  split <;> rfl

theorem sends_logIf_warn (w : WSWorld) (s : String) :
    sends (logIf w (WsAction.logWarn s)) = [] := by
  unfold logIf
  split <;> rfl

theorem connected_irrelevant (w : WSWorld) (buffer subs : List String)
    (eh : List (String × Handler)) :
    connected { w with disconnectEventBuffer := buffer, subscriptionEvents := subs,
                       eventHandlers := eh } = connected w := rfl

theorem sendMessageToSocket_connected (w : WSWorld) (m : String) (b : Bool)
    (hw : connected w = true) :
    sendMessageToSocket w m b
      = (w, logIf w (WsAction.logDebug ("Sending msg to websocket - message " ++ m))
            ++ [WsAction.send m]) := by
  simp [sendMessageToSocket, hw]

theorem sendMessageToSocket_disconnected_sub (w : WSWorld) (m : String)
    (hw : connected w = false) :
    sendMessageToSocket w m true
      = (w, logIf w (WsAction.logWarn
          ("Websocket is not connected. Subscription event will be sent once websocket connection is established. Event: "
            ++ m))) := by
  simp [sendMessageToSocket, hw]

theorem sendMessageToSocket_disconnected_buffer (w : WSWorld) (m : String)
    (hw : connected w = false) :
    sendMessageToSocket w m false
      = ({ w with disconnectEventBuffer := w.disconnectEventBuffer ++ [m] },
         logIf w (WsAction.logWarn
           ("Websocket is not connected. Event added into disconnected buffer. Event: " ++ m))) := by
  simp [sendMessageToSocket, hw]

theorem sendList_connected (msgs : List String) (w : WSWorld) (b : Bool)
    (hw : connected w = true) :
    (sendList w msgs b).1 = w ∧ sends (sendList w msgs b).2 = msgs := by
  induction msgs with
  | nil => simp [sendList, sends]
  | cons m rest ih =>
    simp only [sendList, sendMessageToSocket_connected w m b hw]
    refine ⟨ih.1, ?_⟩
    simp [sends_append, sends_logIf_debug, sends_single_send, sends_cons_send, ih.2]

theorem sendList_sub_state (msgs : List String) (w : WSWorld) :
    (sendList w msgs true).1 = w := by
  induction msgs with
  | nil => rfl
  | cons m rest ih =>
    cases hw : connected w with
    | true => simpa [sendList, sendMessageToSocket_connected w m true hw] using ih
    | false => simpa [sendList, sendMessageToSocket_disconnected_sub w m hw] using ih

theorem sendList_disconnected_buffer (msgs : List String) (w : WSWorld)
    (hw : connected w = false) :
    (sendList w msgs false).1
        = { w with disconnectEventBuffer := w.disconnectEventBuffer ++ msgs }
      ∧ sends (sendList w msgs false).2 = [] := by
  induction msgs generalizing w with
  | nil => simp [sendList, sends]
  | cons m rest ih =>
    simp only [sendList, sendMessageToSocket_disconnected_buffer w m hw]
    have hw' : connected { w with disconnectEventBuffer := w.disconnectEventBuffer ++ [m] }
        = false := hw
    obtain ⟨ih1, ih2⟩ := ih _ hw'
    constructor
    · simp [ih1]
    · simp [sends_append, sends_logIf_warn, ih2]

theorem buffer_mem_send (w : WSWorld) (m : String) (b : Bool) (x : String)
    (hx : x ∈ w.disconnectEventBuffer) :
    x ∈ (sendMessageToSocket w m b).1.disconnectEventBuffer := by
  unfold sendMessageToSocket
  split
  · exact hx
  · split
    · exact hx
    · simp [hx]

theorem buffer_mem_sendList (msgs : List String) (w : WSWorld) (b : Bool) (x : String)
    (hx : x ∈ w.disconnectEventBuffer) :
    x ∈ (sendList w msgs b).1.disconnectEventBuffer := by
  induction msgs generalizing w with
  | nil => exact hx
  | cons m rest ih =>
    simp only [sendList]
    exact ih _ (buffer_mem_send w m b x hx)

theorem sendList_conserves (msgs : List String) (w : WSWorld) (x : String) (hx : x ∈ msgs) :
    WsAction.send x ∈ (sendList w msgs false).2
      ∨ x ∈ (sendList w msgs false).1.disconnectEventBuffer := by
  induction msgs generalizing w with
  | nil => cases hx
  | cons m rest ih =>
    rcases List.mem_cons.1 hx with hx1 | hx2
    · subst hx1
      cases hw : connected w with
      | true =>
        left
        simp [sendList, sendMessageToSocket_connected w x false hw]
      | false =>
        right
        simp only [sendList, sendMessageToSocket_disconnected_buffer w x hw]
        exact buffer_mem_sendList rest _ false x (by simp)
    · rcases ih (w := (sendMessageToSocket w m false).1) hx2 with h | h
      · left
        simp only [sendList, List.mem_append]
        right
        exact h
      · right
        simpa [sendList] using h

theorem find?_append_of_none {α : Type} (p : α → Bool) (l1 l2 : List α)
    (h : l1.find? p = none) : (l1 ++ l2).find? p = l2.find? p := by
  induction l1 with
  | nil => rfl
  | cons a rest ih =>
    cases hp : p a with
    | true => simp [List.find?_cons_of_pos _ hp] at h
    | false =>
      have hneg : ¬ (p a = true) := by simp [hp]
      rw [List.find?_cons_of_neg _ hneg] at h
      rw [List.cons_append, List.find?_cons_of_neg _ hneg]
      exact ih h

theorem connected_set_buffer (w : WSWorld) (l : List String) :
    connected { w with disconnectEventBuffer := l } = connected w := rfl

theorem sendMessageToSocket_state (w : WSWorld) (m : String) (b : Bool) :
    (sendMessageToSocket w m b).1.eventResultHandlers = w.eventResultHandlers
    ∧ (sendMessageToSocket w m b).1.pendingTimers = w.pendingTimers
    ∧ (sendMessageToSocket w m b).1.eventHandlers = w.eventHandlers
    ∧ (sendMessageToSocket w m b).1.subscriptionEvents = w.subscriptionEvents
    ∧ (sendMessageToSocket w m b).1.socket = w.socket
    ∧ (sendMessageToSocket w m b).1.nextTimerId = w.nextTimerId := by
  unfold sendMessageToSocket
  split
  · simp
  · split <;> simp

theorem sendEvent_state (w : WSWorld) (msg : List (String × JScalar)) (b : Bool) :
    (sendEvent w msg b).1.eventResultHandlers = w.eventResultHandlers
    ∧ (sendEvent w msg b).1.pendingTimers = w.pendingTimers
    ∧ (sendEvent w msg b).1.eventHandlers = w.eventHandlers
    ∧ (sendEvent w msg b).1.nextTimerId = w.nextTimerId := by
  unfold sendEvent
  cases b with
  | false =>
    obtain ⟨h1, h2, h3, _, _, h6⟩ := sendMessageToSocket_state w (renderObj msg) false
    simpa using ⟨h1, h2, h3, h6⟩
  | true =>
    obtain ⟨h1, h2, h3, _, _, h6⟩ := sendMessageToSocket_state
      { w with subscriptionEvents := w.subscriptionEvents ++ [renderObj msg] } (renderObj msg) true
    simpa using ⟨h1, h2, h3, h6⟩

theorem sendEvent_sub_registry (w : WSWorld) (msg : List (String × JScalar)) :
    (sendEvent w msg true).1.subscriptionEvents = w.subscriptionEvents ++ [renderObj msg] := by
  unfold sendEvent
  obtain ⟨_, _, _, h4, _, _⟩ := sendMessageToSocket_state
    { w with subscriptionEvents := w.subscriptionEvents ++ [renderObj msg] } (renderObj msg) true
  simpa using h4

theorem startSendHeartBeat_state (w : WSWorld) (now : Nat) :
    (startSendHeartBeat w now).disconnectEventBuffer = w.disconnectEventBuffer
    ∧ (startSendHeartBeat w now).subscriptionEvents = w.subscriptionEvents
    ∧ (startSendHeartBeat w now).socket = w.socket
    ∧ (startSendHeartBeat w now).eventResultHandlers = w.eventResultHandlers
    ∧ (startSendHeartBeat w now).eventHandlers = w.eventHandlers := by
  unfold startSendHeartBeat stopSentHeartBeat setTimeoutT
  cases h : w.heartbeatSendingInterval <;> simp [h]

/-! ### The claim theorems. -/

/-- Claim C1: for every inbound response frame carrying a requestId, at most
one Pending Request is resolved, exactly once: the handler registered under the
requestId is removed from the pending map before invocation (the post-state
lacks the entry, exactly one resolution action is emitted, and re-delivering
the same response resolves nothing), and a response matching no registered
handler changes no state and at most emits log lines. -/
theorem claim_C1_response_resolved_at_most_once (w : WSWorld) (now : Nat) (m : Msg)
    (htruthy : truthyStr m.requestId = true) : C1Prop w now m := by
  unfold C1Prop
  refine ⟨by simp [receiveMessage, htruthy], ?_, ?_⟩
  · intro pid h
    refine ⟨?_, ?_, ?_, ?_⟩
    · simp [processResponse, h]
    · cases hl : w.logEnabled <;> cases hs : m.state == some "OK" <;>
        simp [processResponse, h, logIf, hl, hs, WsAction.isResolution]
    · cases hl : w.logEnabled <;>
        simp [processResponse, h, assocGet_assocDelete, logIf, hl]
    · cases hl : w.logEnabled <;>
        simp [processResponse, h, assocGet_assocDelete, logIf, hl, WsAction.isResolution]
  · intro h
    cases hl : w.logEnabled <;>
      simp [processResponse, h, logIf, hl, WsAction.isLog]

theorem claim_C1_witness :
    truthyStr mC1.requestId = true
    ∧ assocGet wC1.eventResultHandlers (mC1.requestId.getD "") = some 7
    ∧ C1Prop wC1 0 mC1 :=
  ⟨by decide, by decide, claim_C1_response_resolved_at_most_once wC1 0 mC1 (by decide)⟩

/-- Claim C9: inbound routing discriminates on the truthiness of requestId: a
frame whose requestId is absent, null or empty is dispatched by type (never
through the pending-request map), and a frame of an unregistered type is
silently ignored. -/
theorem claim_C9_falsy_requestid_routing (w : WSWorld) (now : Nat) (m : Msg)
    (hfalsy : truthyStr m.requestId = false) : C9Prop w now m := by
  unfold C9Prop
  refine ⟨?_, ?_, ?_, ?_⟩
  · cases hg : assocGet w.eventHandlers m.type with
    | none => simp [receiveMessage, hfalsy, hg]
    | some hdl => cases hdl <;> simp [receiveMessage, hfalsy, hg]
  · intro h
    simp [receiveMessage, hfalsy, h]
  · intro hid h
    simp [receiveMessage, hfalsy, h]
  · intro h
    simp [receiveMessage, hfalsy, h]

theorem claim_C9_witness :
    truthyStr mC9.requestId = false
    ∧ assocGet wC9.eventHandlers mC9.type = some (Handler.user 3)
    ∧ truthyStr (some "") = false
    ∧ C9Prop wC9 5 mC9 :=
  ⟨by decide, by decide, by decide, claim_C9_falsy_requestid_routing wC9 5 mC9 (by decide)⟩

/-- Claim C4: sendEventWithResponse registers the pending entry under its
requestId and arms the 60 s timeout; if the timer fires while the entry is
still registered the promise is rejected with the timeout error and the entry
removed; a matching response delivered afterwards is dropped with only log
output and no state change. -/
theorem claim_C4_timeout_rejects_and_clears (w w' : WSWorld) (req : RequestEvent) (pid : Nat)
    (isSub : Bool) (m : Msg)
    (hreg : assocGet w'.eventResultHandlers req.requestId = some pid)
    (hm : m.requestId = some req.requestId) :
    C4Prop w w' req pid isSub m := by
  unfold C4Prop
  have hfire : responseTimeoutFire w' req.requestId pid
      = ({ w' with eventResultHandlers := assocDelete w'.eventResultHandlers req.requestId },
         [WsAction.reject pid (some "Response was not obtained in 60s")]) := by
    simp [responseTimeoutFire, assocHas, hreg]
  have hstart1 : (sendEventWithResponseStart w req pid isSub).1.eventResultHandlers
      = assocSet w.eventResultHandlers req.requestId pid := by
    unfold sendEventWithResponseStart setTimeoutT
    rw [(sendEvent_state _ _ _).1]
  have hstart2 : (sendEventWithResponseStart w req pid isSub).1.pendingTimers
      = w.pendingTimers ++ [(w.nextTimerId, 60000, TimerKind.responseTimeout req.requestId pid)] := by
    unfold sendEventWithResponseStart setTimeoutT
    rw [(sendEvent_state _ _ _).2.1]
  refine ⟨hstart1, ?_, hstart2, ?_, ?_, ?_, ?_, ?_⟩
  · rw [hstart1, assocGet_assocSet_self]
  · rw [hfire]
  · rw [hfire]
  · rw [hfire]
    exact assocGet_assocDelete w'.eventResultHandlers req.requestId
  · rw [hfire]
    cases hl : w'.logEnabled <;>
      simp [processResponse, hm, assocGet_assocDelete, logIf, hl]
  · rw [hfire]
    cases hl : w'.logEnabled <;>
      simp [processResponse, hm, assocGet_assocDelete, logIf, hl, WsAction.isLog]

theorem claim_C4_witness :
    assocGet wC4.eventResultHandlers reqC4.requestId = some 9
    ∧ mC4.requestId = some reqC4.requestId
    ∧ C4Prop initialWorld wC4 reqC4 9 false mC4 :=
  ⟨by decide, by decide,
   claim_C4_timeout_rejects_and_clears initialWorld wC4 reqC4 9 false mC4 (by decide) (by decide)⟩

theorem onConnect_connected_facts (w : WSWorld) (now : Nat) (hw : connected w = true) :
    sends (onConnect w now).2 = w.subscriptionEvents ++ w.disconnectEventBuffer
    ∧ (onConnect w now).1.disconnectEventBuffer = []
    ∧ (onConnect w now).1.subscriptionEvents = w.subscriptionEvents := by
  obtain ⟨h11, h12⟩ := sendList_connected w.subscriptionEvents w true hw
  have hw2 : connected { w with disconnectEventBuffer := ([] : List String) } = true := by
    rw [connected_set_buffer]
    exact hw
  obtain ⟨h21, h22⟩ := sendList_connected w.disconnectEventBuffer
    { w with disconnectEventBuffer := ([] : List String) } false hw2
  have hfin : (onConnect w now).1
      = addEventHandler
          (startSendHeartBeat { w with disconnectEventBuffer := ([] : List String) } now)
          "heartbeat" Handler.heartbeatStamp := by
    simp only [onConnect, h11, h21]
  have hacts : (onConnect w now).2
      = (sendList w w.subscriptionEvents true).2
        ++ (sendList { w with disconnectEventBuffer := ([] : List String) }
              w.disconnectEventBuffer false).2 := by
    simp only [onConnect, h11]
  refine ⟨?_, ?_, ?_⟩
  · rw [hacts, sends_append, h12, h22]
  · rw [hfin]
    have hs := (startSendHeartBeat_state
      { w with disconnectEventBuffer := ([] : List String) } now).1
    simpa [addEventHandler] using hs
  · rw [hfin]
    have hs := (startSendHeartBeat_state
      { w with disconnectEventBuffer := ([] : List String) } now).2.1
    simpa [addEventHandler] using hs

/-- Claim C3: on a successful (re)connect every Subscription Registry entry is
resent verbatim in registration order, and only after the last of them is the
Disconnect Buffer drained, in FIFO order, each buffered message exactly once;
the buffer ends empty and the registry is retained. -/
theorem claim_C3_replay_then_flush (w : WSWorld) (now : Nat) (hw : connected w = true) :
    C3Prop w now := by
  unfold C3Prop
  exact onConnect_connected_facts w now hw

theorem claim_C3_witness :
    connected wC3 = true ∧ C3Prop wC3 1000 :=
  ⟨by decide, claim_C3_replay_then_flush wC3 1000 (by decide)⟩

theorem sendList_sub_sends_disconnected (msgs : List String) (w : WSWorld)
    (hw : connected w = false) : sends (sendList w msgs true).2 = [] := by
  induction msgs with
  | nil => rfl
  | cons m rest ih =>
    simp [sendList, sendMessageToSocket_disconnected_sub w m hw, sends_append,
      sends_logIf_warn, ih]

/-- Claim C10: during the reconnect flush the buffer is swapped for a fresh
empty one before any buffered message is sent (observably: the subscription
replay phase leaves the state untouched, and a wholly disconnected onConnect
reproduces the buffer exactly, without duplication); a non-subscription send
on a disconnected state re-appends the message to the new buffer; and every
buffered message is either written to the socket or still buffered after
onConnect. -/
theorem claim_C10_buffer_swap_and_retention (w : WSWorld) (now : Nat) (x : String)
    (w' : WSWorld) (msg : String)
    (hx : x ∈ w.disconnectEventBuffer) (hw' : connected w' = false) :
    C10Prop w now x w' msg := by
  unfold C10Prop
  have hsub := sendList_sub_state w.subscriptionEvents w
  refine ⟨hsub, sendMessageToSocket_disconnected_buffer w' msg hw', ?_, ?_⟩
  · have hcons := sendList_conserves w.disconnectEventBuffer
      { w with disconnectEventBuffer := ([] : List String) } x hx
    have hacts : (onConnect w now).2
        = (sendList w w.subscriptionEvents true).2
          ++ (sendList { w with disconnectEventBuffer := ([] : List String) }
                w.disconnectEventBuffer false).2 := by
      simp only [onConnect, hsub]
    have hfin : (onConnect w now).1
        = addEventHandler
            (startSendHeartBeat
              (sendList { w with disconnectEventBuffer := ([] : List String) }
                w.disconnectEventBuffer false).1 now)
            "heartbeat" Handler.heartbeatStamp := by
      simp only [onConnect, hsub]
    rcases hcons with h | h
    · left
      rw [hacts]
      exact List.mem_append_right _ h
    · right
      rw [hfin]
      have hs := (startSendHeartBeat_state
        (sendList { w with disconnectEventBuffer := ([] : List String) }
          w.disconnectEventBuffer false).1 now).1
      simpa [addEventHandler, hs] using h
  · intro hdisc
    have hdisc2 : connected { w with disconnectEventBuffer := ([] : List String) } = false := by
      rw [connected_set_buffer]
      exact hdisc
    obtain ⟨h2a, h2b⟩ := sendList_disconnected_buffer w.disconnectEventBuffer
      { w with disconnectEventBuffer := ([] : List String) } hdisc2
    have hacts : (onConnect w now).2
        = (sendList w w.subscriptionEvents true).2
          ++ (sendList { w with disconnectEventBuffer := ([] : List String) }
                w.disconnectEventBuffer false).2 := by
      simp only [onConnect, hsub]
    have hfin : (onConnect w now).1
        = addEventHandler
            (startSendHeartBeat
              (sendList { w with disconnectEventBuffer := ([] : List String) }
                w.disconnectEventBuffer false).1 now)
            "heartbeat" Handler.heartbeatStamp := by
      simp only [onConnect, hsub]
    constructor
    · have e1 : (onConnect w now).1.disconnectEventBuffer
          = (sendList { w with disconnectEventBuffer := ([] : List String) }
              w.disconnectEventBuffer false).1.disconnectEventBuffer := by
        rw [hfin]
        have hs := (startSendHeartBeat_state
          (sendList { w with disconnectEventBuffer := ([] : List String) }
            w.disconnectEventBuffer false).1 now).1
        simpa [addEventHandler] using hs
      rw [e1, h2a]
      simp
    · rw [hacts, sends_append, h2b, sendList_sub_sends_disconnected _ w hdisc]
      simp

theorem claim_C10_witness :
    ("m1" : String) ∈ wC10.disconnectEventBuffer
    ∧ connected wC10 = false
    ∧ C10Prop wC10 0 "m1" wC10 "extra" :=
  ⟨by decide, by decide,
   claim_C10_buffer_swap_and_retention wC10 0 "m1" wC10 "extra" (by decide) (by decide)⟩

theorem subscribeToEvent_state (w : WSWorld) (rt rT : String) (ms : Nat) (hdl : Handler) :
    (subscribeToEvent w rt rT ms hdl).1.eventHandlers = assocSet w.eventHandlers rT hdl
    ∧ (subscribeToEvent w rt rT ms hdl).1.subscriptionEvents
        = w.subscriptionEvents ++ [renderObj (pollSubscriptionJson rt ms)]
    ∧ (subscribeToEvent w rt rT ms hdl).1.socket = w.socket := by
  unfold subscribeToEvent addEventHandler
  refine ⟨?_, ?_, ?_⟩
  · rw [(sendEvent_state _ _ _).2.2.1]
  · rw [sendEvent_sub_registry]
  · unfold sendEvent
    obtain ⟨_, _, _, _, h5, _⟩ := sendMessageToSocket_state
      { w with eventHandlers := assocSet w.eventHandlers rT hdl,
               subscriptionEvents := w.subscriptionEvents
                 ++ [renderObj (pollSubscriptionJson rt ms)] }
      (renderObj (pollSubscriptionJson rt ms)) true
    simpa using h5

theorem subscribeMany_state (calls : List (String × Nat × Handler)) (w : WSWorld) (rT : String) :
    (subscribeMany w rT calls).1.subscriptionEvents
        = w.subscriptionEvents ++ calls.map (fun c => renderObj (pollSubscriptionJson c.1 c.2.1))
    ∧ (subscribeMany w rT calls).1.eventHandlers
        = calls.foldl (fun eh c => assocSet eh rT c.2.2) w.eventHandlers
    ∧ (subscribeMany w rT calls).1.socket = w.socket := by
  induction calls generalizing w with
  | nil => simp [subscribeMany]
  | cons c rest ih =>
    obtain ⟨s1, s2, s3⟩ := subscribeToEvent_state w c.1 rT c.2.1 c.2.2
    obtain ⟨i1, i2, i3⟩ := ih (subscribeToEvent w c.1 rT c.2.1 c.2.2).1
    refine ⟨?_, ?_, ?_⟩
    · simp only [subscribeMany, i1, s2]
      simp
    · simp only [subscribeMany, i2, s1, List.foldl_cons]
    · simp only [subscribeMany, i3, s3]

/-- Claim C7: a subscribe under an already-used responseKind replaces the
handler but appends a fresh registry entry without deduplication, so k
subscribes leave k replay entries (last handler winning), all resent before
the buffer on every reconnect. -/
theorem claim_C7_resubscribe_appends (w : WSWorld) (requestType responseType : String)
    (dataEveryMs : Nat) (hdl : Handler) (calls : List (String × Nat × Handler)) (now : Nat) :
    C7Prop w requestType responseType dataEveryMs hdl calls now := by
  unfold C7Prop
  obtain ⟨s1, s2, _⟩ := subscribeToEvent_state w requestType responseType dataEveryMs hdl
  obtain ⟨m1, m2, _⟩ := subscribeMany_state calls w responseType
  refine ⟨s1, s2, m1, ?_, ?_, ?_⟩
  · rw [m1]
    simp
  · intro cs c hcalls
    subst hcalls
    rw [m2, List.foldl_append]
    simp [assocGet_assocSet_self]
  · intro hconn
    exact (onConnect_connected_facts _ now hconn).1

theorem claim_C7_witness :
    C7Prop initialWorld "ioPinStatePollSubscriptionRequest" "ioPinStateSubscriptionNotify" 100
      (Handler.user 1)
      [("ioPinStatePollSubscriptionRequest", 100, Handler.user 1),
       ("ioPinStatePollSubscriptionRequest", 200, Handler.user 2)] 0
    ∧ (subscribeMany initialWorld "ioPinStateSubscriptionNotify"
        [("ioPinStatePollSubscriptionRequest", 100, Handler.user 1),
         ("ioPinStatePollSubscriptionRequest", 200, Handler.user 2)]).1.subscriptionEvents.length
      = 2 :=
  ⟨claim_C7_resubscribe_appends initialWorld "ioPinStatePollSubscriptionRequest"
     "ioPinStateSubscriptionNotify" 100 (Handler.user 1)
     [("ioPinStatePollSubscriptionRequest", 100, Handler.user 1),
      ("ioPinStatePollSubscriptionRequest", 200, Handler.user 2)] 0,
   by decide⟩

theorem all_filter_self {α : Type} (l : List α) (p : α → Bool) : (l.filter p).all p = true := by
  induction l with
  | nil => rfl
  | cons a rest ih => cases hp : p a <;> simp [List.filter_cons, hp, ih]

/-- Claim C6 counterexample: with socket 1 currently owned and open, an error
signal followed by the close signal of that same socket instance leaves two
reconnect timers pending, refuting "repeated error/close signals for one
connection instance never cause more than one scheduled reconnect". -/
theorem claim_C6_counterexample :
    isCurrentSocket wC6 1 = true
    ∧ pendingReconnects wC6 = 0
    ∧ pendingReconnects (socketCloseSignal (socketErrorSignal wC6 "WebSocket error").1 1).1 = 2
    ∧ ¬ pendingReconnects (socketCloseSignal (socketErrorSignal wC6 "WebSocket error").1 1).1 ≤ 1 := by
  decide

/-- Claim C6 (amended): a close signal for a socket that is not the owned one
is ignored entirely; a close for the owned socket schedules exactly one
reconnect timer with the fixed 1000 ms delay; an error signal schedules
exactly one such timer with no identity check; each scheduling overwrites the
stored handle, and connect() cancels exactly the timer the stored handle
points to. -/
theorem claim_C6_signal_scheduling (w : WSWorld) (sid : Nat) (msg : String) :
    C6Prop w sid msg := by
  unfold C6Prop
  refine ⟨?_, ?_, ?_, ?_, ?_⟩
  · intro h
    simp [socketCloseSignal, h, onDisconnect]
  · intro h
    cases hsock : w.socket with
    | none => simp [isCurrentSocket, hsock] at h
    | some s =>
      have hsid : (s.sid == sid) = true := by
        simpa [isCurrentSocket, hsock] using h
      constructor <;>
        simp [socketCloseSignal, isCurrentSocket, hsock, hsid, onDisconnect, reconnect,
          setTimeoutT]
  · simp [socketErrorSignal, reconnect, setTimeoutT]
  · simp [socketErrorSignal, reconnect, setTimeoutT]
  · have hfil : (connect w).1.pendingTimers
        = w.pendingTimers.filter (fun t => t.1 != w.reconnectTimeout) := by
      unfold connect clearTimeoutT
      cases hs : w.socket <;> simp [hs]
    rw [hfil]
    exact all_filter_self w.pendingTimers (fun t => t.1 != w.reconnectTimeout)

theorem claim_C6_witness :
    isCurrentSocket wC6 1 = true ∧ C6Prop wC6 1 "WebSocket error" :=
  ⟨by decide, claim_C6_signal_scheduling wC6 1 "WebSocket error"⟩

/-- Claim C5 counterexample: with a load in flight under identity "a", a
load() call entering under the same identity "a" does issue a new remote fetch
(its action list is the fetch, not empty), refuting "returns immediately
without issuing a new remote fetch"; it is indeed not enqueued. -/
theorem claim_C5_counterexample :
    dC5.state = LoadDesignState.LOADING
    ∧ dC5.loaderIdentifier = some "a"
    ∧ (loadDesignStart dC5 "a" 1).2 = [DAction.fetch 1]
    ∧ (loadDesignStart dC5 "a" 1).2 ≠ []
    ∧ (loadDesignStart dC5 "a" 1).1.loadFinishConsumers = [] := by
  decide

/-- Claim C5 (amended): while Loading under identity id, a call under the same
id re-enters the main-loader path: it is not enqueued, but it issues a fresh
remote fetch, restamping Loading and the same identity; only a call under a
different identity is enqueued (and issues nothing). -/
theorem claim_C5_same_identity_refetches (d : DState) (id id2 : String) (pid pid2 : Nat)
    (h1 : d.state = LoadDesignState.LOADING) (h2 : d.loaderIdentifier = some id)
    (h3 : id2 ≠ id) : C5Prop d id id2 pid pid2 := by
  unfold C5Prop
  have h3' : id ≠ id2 := fun he => h3 he.symm
  constructor
  · simp [loadDesignStart, h2]
  · simp [loadDesignStart, h1, h2, h3']

theorem claim_C5_witness :
    dC5.state = LoadDesignState.LOADING
    ∧ dC5.loaderIdentifier = some "a"
    ∧ ("b" : String) ≠ "a"
    ∧ C5Prop dC5 "a" "b" 1 2 :=
  ⟨by decide, by decide, by decide,
   claim_C5_same_identity_refetches dC5 "a" "b" 1 2 (by decide) (by decide) (by decide)⟩

theorem runStarts_all_wait (calls : List (String × Nat)) (d : DState) (id0 : String)
    (hstate : d.state = LoadDesignState.LOADING) (hid : d.loaderIdentifier = some id0)
    (hcalls : ∀ c ∈ calls, c.1 ≠ id0) :
    runStarts d calls
      = ({ d with loadFinishConsumers := d.loadFinishConsumers ++ calls.map Prod.snd }, []) := by
  induction calls generalizing d with
  | nil => simp [runStarts]
  | cons c rest ih =>
    have hc : id0 ≠ c.1 := fun he => hcalls c (List.mem_cons_self c rest) he.symm
    have hstep : loadDesignStart d c.1 c.2
        = ({ d with loadFinishConsumers := d.loadFinishConsumers ++ [c.2] }, []) := by
      simp [loadDesignStart, hstate, hid, hc]
    have hrest := ih { d with loadFinishConsumers := d.loadFinishConsumers ++ [c.2] }
      hstate hid (fun c' hc' => hcalls c' (List.mem_cons_of_mem c hc'))
    simp [runStarts, hstep, hrest]

/-- Claim C2: with one load in flight (loader identity id0, suspended loader
promise p0), any number of load() calls under other identities are all
enqueued in order, perform no action (in particular no fetch), leave exactly
one fetch in flight at every point, and the single completion notifies every
queued waiter of the one outcome (Done on a payload, Error on none). -/
theorem claim_C2_single_flight (pd : Option PartialDesign) (ts : Nat) (id0 : String) (p0 : Nat)
    (calls : List (String × Nat)) (resp : Option DspDesign) (now : Nat)
    (hcalls : ∀ c ∈ calls, c.1 ≠ id0) : C2Prop pd ts id0 p0 calls resp now := by
  unfold C2Prop
  have hrun := runStarts_all_wait calls
    { partialDesign := pd, timestamp := ts, state := LoadDesignState.LOADING,
      loadFinishConsumers := [], loaderIdentifier := some id0, inflight := [p0] }
    id0 rfl rfl hcalls
  refine ⟨by simp [hrun], by simp [hrun], ?_, ?_⟩
  · intro pre suf hps
    have hpre : ∀ c ∈ pre, c.1 ≠ id0 := fun c hc =>
      hcalls c (by rw [hps]; exact List.mem_append_left suf hc)
    have h := runStarts_all_wait pre
      { partialDesign := pd, timestamp := ts, state := LoadDesignState.LOADING,
        loadFinishConsumers := [], loaderIdentifier := some id0, inflight := [p0] }
      id0 rfl rfl hpre
    simp [h]
  · rw [hrun]
    cases resp with
    | none =>
      refine ⟨?_, ?_, ?_, ?_⟩ <;>
        simp [loadDesignFinish, notifyAllDesignConsumers, Function.comp]
    | some dd =>
      refine ⟨?_, ?_, ?_, ?_⟩ <;>
        simp [loadDesignFinish, notifyAllDesignConsumers, Function.comp]

theorem claim_C2_witness :
    (∀ c ∈ [("idB", 2), ("idC", 3)], c.1 ≠ ("idA" : String))
    ∧ C2Prop none 0 "idA" 1 [("idB", 2), ("idC", 3)] dC2 99 :=
  ⟨by decide, claim_C2_single_flight none 0 "idA" 1 [("idB", 2), ("idC", 3)] dC2 99 (by decide)⟩

/-- Claim C8: on a heartbeat tick with the socket connected and the last
inbound heartbeat older than the threshold, a heartbeat frame is sent and the
socket is force-closed with the diagnostic reason; the resulting close signal
passes the identity check and schedules a reconnect; the fired reconnect tears
the connection down (socket handle dropped: Disconnected) and opens a fresh
socket in the Connecting state. The freshness hypothesis on timer ids is the
environment invariant that setTimeout handles are never reused while pending. -/
theorem claim_C8_missing_heartbeat_drives_reconnect (w : WSWorld) (sid t now : Nat)
    (hsock : w.socket = some { sid := sid, readyState := ReadyState.opened })
    (hhb : w.lastIncomeHeartbeat = some t)
    (htime : (WS_MISSING_HEARTBEAT_TIMEOUT_MS : Int) < (now : Int) - (t : Int))
    (hfresh : ∀ tm ∈ w.pendingTimers, tm.1 < w.nextTimerId) :
    C8Prop w sid now := by
  have hconn : connected w = true := by simp [connected, hsock]
  have hsend : sendEvent w heartbeatJson false
      = (w, logIf w (WsAction.logDebug
            ("Sending msg to websocket - message " ++ renderObj heartbeatJson))
          ++ [WsAction.send (renderObj heartbeatJson)]) := by
    unfold sendEvent
    simpa using sendMessageToSocket_connected w (renderObj heartbeatJson) false hconn
  have htimeout : isHeartbeatTimeout w now = true := by
    simp [isHeartbeatTimeout, hhb]
    omega
  have hTick : heartbeatTick w now
      = ({ w with socket := some { sid := sid, readyState := ReadyState.closing } },
         (logIf w (WsAction.logDebug
             ("Sending msg to websocket - message " ++ renderObj heartbeatJson))
           ++ [WsAction.send (renderObj heartbeatJson)])
          ++ logIf w (WsAction.logWarn "Close socket due to missing heartbeat")
          ++ [WsAction.closeCall sid 1000 (some "Missing heartbeat")]) := by
    simp [heartbeatTick, hconn, hsend, htimeout, hsock]
  unfold C8Prop
  rw [hTick]
  set w1 : WSWorld := { w with socket := some { sid := sid, readyState := ReadyState.closing } }
    with hw1
  have hr2 : socketCloseSignal w1 sid
      = ({ w with
            socket := some { sid := sid, readyState := ReadyState.closed },
            pendingTimers := w.pendingTimers
              ++ [(w.nextTimerId, 1000, TimerKind.reconnectTimer)],
            reconnectTimeout := w.nextTimerId, nextTimerId := w.nextTimerId + 1 },
         logIf w (WsAction.logInfo "Websocket disconnected")) := by
    simp [socketCloseSignal, isCurrentSocket, hw1, onDisconnect, reconnect, setTimeoutT, logIf]
  rw [hr2]
  set w2 : WSWorld :=
    { w with
        socket := some { sid := sid, readyState := ReadyState.closed },
        pendingTimers := w.pendingTimers ++ [(w.nextTimerId, 1000, TimerKind.reconnectTimer)],
        reconnectTimeout := w.nextTimerId, nextTimerId := w.nextTimerId + 1 }
    with hw2
  have hfind0 : w.pendingTimers.find? (fun tm => tm.1 == w.nextTimerId) = none := by
    rw [List.find?_eq_none]
    intro tm hm
    have hlt := hfresh tm hm
    simp [Nat.ne_of_lt hlt]
  have hfind : w2.pendingTimers.find? (fun tm => tm.1 == w.nextTimerId)
      = some (w.nextTimerId, 1000, TimerKind.reconnectTimer) := by
    rw [hw2]
    simp only []
    rw [find?_append_of_none _ _ _ hfind0]
    simp [List.find?_cons]
  have hdisc : ∀ v : WSWorld, v.socket = some { sid := sid, readyState := ReadyState.closed } →
      disconnect v = ({ stopSentHeartBeat v with socket := none }, []) := by
    intro v hv
    unfold disconnect
    rw [hv]
    simp
  refine ⟨?_, ?_, ?_, ?_, ?_, ?_, ?_⟩
  · cases hl : w.logEnabled <;> simp [logIf, hl, sends]
  · cases hl : w.logEnabled <;> simp [logIf, hl]
  · rfl
  · rw [hw2]
    simp [pendingReconnects, List.filter_append]
  · rw [hw2]
    simp [connected]
  · rw [hdisc w2 (by rw [hw2])]
  · -- the fired reconnect: remove the timer, tear down, connect a fresh socket
    have hfind' : (w.pendingTimers
          ++ [(w.nextTimerId, 1000, TimerKind.reconnectTimer)]).find?
            (fun tm => tm.1 == w.nextTimerId)
        = some (w.nextTimerId, 1000, TimerKind.reconnectTimer) := by
      rw [find?_append_of_none _ _ _ hfind0]
      simp [List.find?_cons]
    cases hhi : w.heartbeatSendingInterval <;>
      simp [reconnectTimerFire, hw2, hfind', disconnect, stopSentHeartBeat, connect,
        clearTimeoutT, hhi]

theorem claim_C8_witness :
    wC8.socket = some { sid := 1, readyState := ReadyState.opened }
    ∧ wC8.lastIncomeHeartbeat = some 0
    ∧ (WS_MISSING_HEARTBEAT_TIMEOUT_MS : Int) < ((15001 : Nat) : Int) - ((0 : Nat) : Int)
    ∧ (∀ tm ∈ wC8.pendingTimers, tm.1 < wC8.nextTimerId)
    ∧ C8Prop wC8 1 15001 :=
  ⟨by decide, by decide, by decide, by decide,
   claim_C8_missing_heartbeat_drives_reconnect wC8 1 0 15001 (by decide) (by decide)
     (by decide) (by decide)⟩

end NnounceSdk
